import Mathlib

/-!
Verification development for the expense-tracking backend's analytics and
scheduling core.  The Lean definitions below are shallow embeddings of the
Python source:

* `app/utils/analyzer.py` (`FinanceAnalyzer`),
* `app/routers/notifications.py` (`generate_notifications`, `get_notifications`),
* `app/utils/scheduler.py` (`start_scheduler`, `refresh_scheduler_jobs`),
* `app/routers/settings.py` (`start_scheduler_endpoint`, `update_scheduler_schedule`).

Monetary amounts are modelled as exact rationals; Python's `round(x, 2)` is
modelled as round-half-to-even at two decimal places; Python dicts are
modelled as insertion-ordered association lists.
-/

/-- Round a rational to the nearest integer, ties to even — the behaviour of
Python's builtin `round` on the exact value. -/
def roundHalfEven (q : ℚ) : ℤ :=
  let f := ⌊q⌋
  let r := q - (f : ℚ)
  if r < 1/2 then f
  else if 1/2 < r then f + 1
  else if f % 2 = 0 then f else f + 1

/-- Python's `round(q, 2)`. -/
def round2 (q : ℚ) : ℚ := ((roundHalfEven (q * 100) : ℤ) : ℚ) / 100

/-- One expense record as consumed by the analyzer: `exp["category"]`,
`float(exp.get("amount", 0))` and `exp.get("expense_id", "unknown")` are the
only fields the analytics core reads. -/
structure Expense where
  category : String
  amount : ℚ
  expense_id : String
deriving DecidableEq

/-- The amounts list `[float(exp.get("amount", 0)) for exp in expenses]`. -/
def amounts (expenses : List Expense) : List ℚ := expenses.map (fun e => e.amount)

/-- `statistics.fmean`: arithmetic mean (0 on the empty list, where the
source never calls it). -/
def fmean (xs : List ℚ) : ℚ := xs.sum / (xs.length : ℚ)

/-- `statistics.pstdev` squared: the population variance.  The source
compares `stdev == 0` and divides by `stdev`; we keep the exact variance and
express the square-root comparisons equivalently (see `zscoreGe`). -/
def pvariance (xs : List ℚ) : ℚ :=
  ((xs.map (fun a => (a - fmean xs) ^ 2)).sum) / (xs.length : ℚ)

/-- Python-dict lookup `m.get(k, d)` on an insertion-ordered association list. -/
def lookupD (m : List (String × ℚ)) (k : String) (d : ℚ) : ℚ :=
  match m.find? (fun p => p.1 == k) with
  | some p => p.2
  | none => d

/-- Python-dict mutation `merged = dict(base); merged.update(upd)`: keys
already in `base` keep their position with the updated value, new keys are
appended in `upd` order. -/
def dictUpdate (base upd : List (String × ℚ)) : List (String × ℚ) :=
  (base.map (fun p =>
    match upd.find? (fun q => q.1 == p.1) with
    | some q => (p.1, q.2)
    | none => p))
  ++ upd.filter (fun q => !(base.any (fun p => p.1 == q.1)))

/-- `FinanceAnalyzer.__init__`: the thresholds loaded from the optional
budget-config file, plus the spike parameters. -/
structure FinanceAnalyzer where
  budget_thresholds : List (String × ℚ)
  spike_sigma : ℚ
  minimum_spike_amount : ℚ
deriving DecidableEq

/-- `FinanceAnalyzer.load_thresholds(overrides)`: file thresholds merged with
the overrides (`merged = dict(self._budget_thresholds); merged.update(overrides)`). -/
def load_thresholds (an : FinanceAnalyzer) (overrides : Option (List (String × ℚ))) :
    List (String × ℚ) :=
  dictUpdate an.budget_thresholds (overrides.getD [])

/-- `FinanceAnalyzer.monthly_total`. -/
def monthly_total (expenses : List Expense) : ℚ :=
  round2 ((amounts expenses).sum)

/-- `defaultdict(float)` accumulation: add `a` under key `c`, appending a new
entry at the end on first sight of the key (dict keys are unique, so updating
the first occurrence is updating the only one). -/
def addAmount : List (String × ℚ) → String → ℚ → List (String × ℚ)
  | [], c, a => [(c, a)]
  | p :: rest, c, a =>
    if p.1 = c then (p.1, p.2 + a) :: rest else p :: addAmount rest c a

/-- The per-category raw sums of `FinanceAnalyzer.category_totals`, before
rounding. -/
def rawCategoryTotals (expenses : List Expense) : List (String × ℚ) :=
  expenses.foldl (fun m e => addAmount m e.category e.amount) []

/-- `FinanceAnalyzer.category_totals`. -/
def category_totals (expenses : List Expense) : List (String × ℚ) :=
  (rawCategoryTotals expenses).map (fun p => (p.1, round2 p.2))

/-- `FinanceAnalyzer.overspending_categories`. -/
def overspending_categories (an : FinanceAnalyzer) (expenses : List Expense)
    (budget_overrides : Option (List (String × ℚ))) : List (String × ℚ) :=
  let thresholds := load_thresholds an budget_overrides
  if thresholds.isEmpty then []
  else
    (category_totals expenses).filter (fun p =>
      thresholds.any (fun q => q.1 == p.1) && decide (lookupD thresholds p.1 0 < p.2))

/-- `defaultdict(list)` grouping of expenses by category, first-seen order. -/
def addExpense : List (String × List Expense) → Expense → List (String × List Expense)
  | [], e => [(e.category, [e])]
  | p :: rest, e =>
    if p.1 = e.category then (p.1, p.2 ++ [e]) :: rest else p :: addExpense rest e

/-- `FinanceAnalyzer.suggest_budget`. -/
def suggest_budget (expenses : List Expense) (buffer_percentage : ℚ) :
    List (String × ℚ) :=
  (expenses.foldl addExpense []).map (fun p =>
    (p.1, round2 (fmean (p.2.map (fun e => e.amount)) * (1 + buffer_percentage))))

/-- The z-score comparison `(amount - mean) / stdev >= sigma` of
`FinanceAnalyzer.detect_spending_spikes`, for non-zero variance `v` (so
`stdev = sqrt v > 0`), written without square roots so it is decidable:
`d / sqrt v >= σ` iff (for `σ >= 0`) `d >= 0` and `d^2 >= σ^2 v`, and (for
`σ < 0`) `d >= 0` or `d^2 <= σ^2 v`.  `zscoreGe_iff_real` below proves this
equivalent to the source's real-number comparison. -/
def zscoreGe (d v sigma : ℚ) : Bool :=
  if 0 ≤ sigma then decide (0 ≤ d ∧ sigma ^ 2 * v ≤ d ^ 2)
  else decide (0 ≤ d ∨ d ^ 2 ≤ sigma ^ 2 * v)

/-- The loop body of `detect_spending_spikes`: skip amounts below the
minimum; with zero variance the source sets `z_score = 0` and keeps the
record iff `0 >= sigma`; otherwise compare the z-score against sigma. -/
def isSpike (an : FinanceAnalyzer) (mean v a : ℚ) : Bool :=
  if a < an.minimum_spike_amount then false
  else if v = 0 then decide (an.spike_sigma ≤ 0)
  else zscoreGe (a - mean) v an.spike_sigma

/-- `FinanceAnalyzer.detect_spending_spikes`. -/
def detect_spending_spikes (an : FinanceAnalyzer) (expenses : List Expense) :
    List Expense :=
  if expenses.isEmpty then []
  else
    expenses.filter (fun e =>
      isSpike an (fmean (amounts expenses)) (pvariance (amounts expenses)) e.amount)

/-- `CategoryInsight` of `app/utils/analyzer.py`. -/
structure CategoryInsight where
  category : String
  total : ℚ
  average : ℚ
  transaction_count : ℕ
  overspent : Bool
  suggested_budget : Option ℚ
deriving DecidableEq

/-- The dict returned by `FinanceAnalyzer.summarize`. -/
structure Summary where
  monthly_total : ℚ
  category_totals : List (String × ℚ)
  overspending_categories : List (String × ℚ)
  suggested_budgets : List (String × ℚ)
  spending_spikes : List Expense
  insights : List CategoryInsight
deriving DecidableEq

/-- `FinanceAnalyzer.summarize`. -/
def summarize (an : FinanceAnalyzer) (expenses : List Expense)
    (budget_overrides : Option (List (String × ℚ))) : Summary :=
  if expenses.isEmpty then ⟨0, [], [], [], [], []⟩
  else
    let category_map := expenses.foldl addExpense []
    let category_totals :=
      category_map.map (fun p => (p.1, round2 ((p.2.map (fun e => e.amount)).sum)))
    let suggestions := suggest_budget expenses (15/100)
    let overspent := overspending_categories an expenses budget_overrides
    let insights := category_map.map (fun p =>
      CategoryInsight.mk p.1 (lookupD category_totals p.1 0)
        (round2 (lookupD category_totals p.1 0 / (p.2.length : ℚ)))
        p.2.length
        (overspent.any (fun q => q.1 == p.1))
        ((suggestions.find? (fun q => q.1 == p.1)).map (fun q => q.2)))
    ⟨monthly_total expenses, category_totals, overspent, suggestions,
      detect_spending_spikes an expenses, insights⟩

/-- A notification emitted by `generate_notifications` in
`app/routers/notifications.py`, reduced to the fields the emission logic
determines: the deterministic `id`, the `type` and the `severity` (the
human-readable title/message and the numeric payload carry no further
branching information). -/
structure Notification where
  nid : String
  ntype : String
  severity : String
deriving DecidableEq

/-- Block 1 of `generate_notifications`: one danger notification per
overspending category. -/
def budgetExceededNotifs (overspending : List (String × ℚ)) (month : String) :
    List Notification :=
  overspending.map (fun p =>
    Notification.mk ("overspend_" ++ p.1 ++ "_" ++ month) ("budget_exceeded") ("danger"))

/-- The percentage expression `(spent / threshold) * 100 if threshold > 0
else 0` used by blocks 2 and 5 of `generate_notifications`. -/
def percentOf (spent threshold : ℚ) : ℚ :=
  if 0 < threshold then spent / threshold * 100 else 0

/-- Block 2 of `generate_notifications`: warn for each threshold category not
already overspent whose spend (`spent = category_totals.get(category, 0)`) is
positive and whose percentage of the threshold is in [80, 100). -/
def approachingBudgetNotifs (thresholds category_totals overspending : List (String × ℚ))
    (month : String) : List Notification :=
  thresholds.filterMap (fun p =>
    if overspending.any (fun q => q.1 == p.1) then none
    else if 0 < lookupD category_totals p.1 0 then
      if 80 ≤ percentOf (lookupD category_totals p.1 0) p.2 ∧
          percentOf (lookupD category_totals p.1 0) p.2 < 100 then
        some (Notification.mk ("approaching_" ++ p.1 ++ "_" ++ month)
          ("approaching_budget") ("warning"))
      else none
    else none)

/-- Block 3 of `generate_notifications`: a single detailed notification for
exactly one spike, a single aggregate one for several. -/
def spikeNotifs (spending_spikes : List Expense) (month : String) : List Notification :=
  if spending_spikes.isEmpty then []
  else if spending_spikes.length = 1 then
    [Notification.mk
      ("spike_" ++ ((spending_spikes.head?.map (fun s => s.expense_id)).getD ("unknown")))
      ("spending_spike") ("warning")]
  else [Notification.mk ("spikes_" ++ month) ("spending_spikes") ("warning")]

/-- Block 4 of `generate_notifications`: info when the monthly total reaches
90% of the summed thresholds. -/
def highMonthlyNotifs (thresholds : List (String × ℚ)) (monthly_total : ℚ)
    (month : String) : List Notification :=
  if 0 < (thresholds.map Prod.snd).sum ∧ 0 < monthly_total ∧
      90 ≤ monthly_total / (thresholds.map Prod.snd).sum * 100 then
    [Notification.mk ("high_monthly_" ++ month) ("high_monthly_total") ("info")]
  else []

/-- The `all_categories_under_70` generator expression of
`generate_notifications`: over the threshold keys, categories with positive
threshold must sit below 70% (`thresholds.get(cat, 1)` as divisor). -/
def all_categories_under_70 (thresholds category_totals : List (String × ℚ)) : Bool :=
  (thresholds.map Prod.fst).all (fun cat =>
    if 0 < lookupD thresholds cat 0 then
      decide (lookupD category_totals cat 0 / lookupD thresholds cat 1 * 100 < 70)
    else true)

/-- Block 5 of `generate_notifications`: the good-progress success
notification. -/
def goodProgressNotifs (thresholds category_totals overspending : List (String × ℚ))
    (monthly_total : ℚ) (month : String) : List Notification :=
  if overspending.isEmpty = true ∧ 0 < monthly_total ∧
      all_categories_under_70 thresholds category_totals = true ∧
      category_totals.isEmpty = false then
    [Notification.mk ("good_progress_" ++ month) ("good_progress") ("success")]
  else []

/-- The body of `generate_notifications` after its `load_thresholds` call:
empty expense list short-circuits to no notifications, otherwise the five
blocks run in source order against the summary fields and the loaded
thresholds. -/
def notificationRules (expenses : List Expense) (summary : Summary) (month : String)
    (thresholds : List (String × ℚ)) : List Notification :=
  if expenses.isEmpty then []
  else
    budgetExceededNotifs summary.overspending_categories month
    ++ approachingBudgetNotifs thresholds summary.category_totals
        summary.overspending_categories month
    ++ spikeNotifs summary.spending_spikes month
    ++ highMonthlyNotifs thresholds summary.monthly_total month
    ++ goodProgressNotifs thresholds summary.category_totals
        summary.overspending_categories summary.monthly_total month

/-- A raised Python exception. -/
inductive PyErr where
  | typeError (msg : String)
  | importError (msg : String)
deriving DecidableEq

def pyErrMsg : PyErr → String
  | .typeError m => m
  | .importError m => m

/-- Calling `FinanceAnalyzer.load_thresholds` with the given keyword-argument
names: the method signature is `load_thresholds(self, overrides=None)`, so
any keyword other than `overrides` raises `TypeError` before the body runs. -/
def call_load_thresholds (an : FinanceAnalyzer) (overrides : Option (List (String × ℚ)))
    (kwargNames : List String) : Except PyErr (List (String × ℚ)) :=
  match kwargNames.find? (fun k => !(k == "overrides")) with
  | some k =>
    Except.error (PyErr.typeError
      (("load_thresholds() got an unexpected keyword argument ") ++ k))
  | none => Except.ok (load_thresholds an overrides)

/-- `generate_notifications(expenses, summary, month, user_id)` of
`app/routers/notifications.py`: its first action is
`finance_analyzer.load_thresholds(user_id=user_id)`. -/
def generate_notifications (an : FinanceAnalyzer) (expenses : List Expense)
    (summary : Summary) (month : String) (user_id : String) :
    Except PyErr (List Notification) :=
  match call_load_thresholds an none [("user_id")] with
  | .error e => .error e
  | .ok thresholds => .ok (notificationRules expenses summary month thresholds)

/-- The response dict of the `GET /{month}` notifications endpoint. -/
structure NotifResponse where
  month : String
  notifications : List Notification
  count : ℕ
  danger : ℕ
  warning : ℕ
  info : ℕ
  success : ℕ
deriving DecidableEq

/-- `get_notifications(month, user_id)` of `app/routers/notifications.py`
(the current-month endpoint delegates to it): it too starts with
`finance_analyzer.load_thresholds(user_id=user_id)`, then summarizes the
user's expenses and generates notifications. -/
def get_notifications (an : FinanceAnalyzer) (expenses : List Expense)
    (month : String) (user_id : String) : Except PyErr NotifResponse :=
  match call_load_thresholds an none [("user_id")] with
  | .error e => .error e
  | .ok thresholds =>
    match generate_notifications an expenses (summarize an expenses (some thresholds))
        month user_id with
    | .error e => .error e
    | .ok notifications =>
      .ok ⟨month, notifications, notifications.length,
        (notifications.filter (fun n => n.severity == "danger")).length,
        (notifications.filter (fun n => n.severity == "warning")).length,
        (notifications.filter (fun n => n.severity == "info")).length,
        (notifications.filter (fun n => n.severity == "success")).length⟩

/-- An APScheduler trigger as configured by this code base: the test-mode
`IntervalTrigger(minutes=2)` of `start_scheduler`, or a
`CronTrigger(day=..., hour=..., minute=...)`. -/
inductive Trigger where
  | intervalMinutes (n : ℤ)
  | cron (day : ℤ) (hour : ℤ) (minute : ℤ)
deriving DecidableEq

/-- A registered APScheduler job. -/
structure Job where
  jid : String
  jname : String
  trigger : Trigger
deriving DecidableEq

/-- The module-level `scheduler` global of `app/utils/scheduler.py` once it
is a live `BackgroundScheduler` (the global is `None` when absent, hence
`Option SchedulerGlobal` below). -/
structure SchedulerGlobal where
  running : Bool
  jobs : List Job
deriving DecidableEq

/-- `start_scheduler()` of `app/utils/scheduler.py`: if the global is not
`None` it returns immediately; otherwise it creates a scheduler, adds the
single system-wide job `monthly_expense_reports` with the testing-mode
`IntervalTrigger(minutes=2)` (a self-removing one-time wrapper), and starts
the dispatch loop.  It reads no persisted settings. -/
def start_scheduler (g : Option SchedulerGlobal) : Option SchedulerGlobal :=
  match g with
  | some s => some s
  | none =>
    some ⟨true,
      [⟨("monthly_expense_reports"), ("Monthly Expense Reports (TEST MODE - ONE TIME)"),
        Trigger.intervalMinutes 2⟩]⟩

/-- A user's persisted scheduler settings as returned by
`dynamo.get_scheduler_settings` (day, hour, minute, enabled). -/
structure StoredSettings where
  day : ℤ
  hour : ℤ
  minute : ℤ
  enabled : Bool
deriving DecidableEq

/-- `refresh_scheduler_jobs()` of `app/utils/scheduler.py` is literally
`pass`; we model it over the persisted settings it could have consulted and
the scheduler state it could have mutated, neither of which it touches. -/
def refresh_scheduler_jobs (settings : List (String × StoredSettings))
    (g : Option SchedulerGlobal) : Option SchedulerGlobal :=
  g

/-- The module-level names defined by `app/utils/scheduler.py` (the
candidates a `from app.utils.scheduler import ...` can resolve). -/
def scheduler_module_names : List String :=
  [("logger"), ("scheduler"), ("monthly_reports_job"), ("start_scheduler"),
    ("stop_scheduler"), ("refresh_scheduler_jobs"), ("get_scheduler_status")]

/-- A Python `from <module> import <name>` statement: succeeds iff the module
defines the name, else raises `ImportError`. -/
def resolveImport (moduleNames : List String) (name : String) : Except PyErr Unit :=
  if name ∈ moduleNames then Except.ok ()
  else Except.error (PyErr.importError (("cannot import name ") ++ name))

/-- The value bound to the name `scheduler` inside `app/routers/settings.py`.
That module runs `from app.utils.scheduler import (..., scheduler)` when it
is imported, which in `app/main.py` happens before the FastAPI lifespan calls
`start_scheduler()`; the value copied at that moment is `None`, and Python's
from-import copies the value, so later reassignments of the global inside
`app.utils.scheduler` never rebind this name.  Every `scheduler`-guarded
branch of the settings router therefore sees `None`. -/
def settings_scheduler_binding : Option SchedulerGlobal := none

/-- The JSON body returned by the settings endpoints, reduced to its
`success` flag. -/
structure ApiResponse where
  success : Bool
deriving DecidableEq

/-- An `HTTPException(status_code=..., detail=...)`. -/
structure HttpError where
  status : ℕ
  detail : String
deriving DecidableEq

/-- The status code of an endpoint outcome, if it raised. -/
def errStatus : Except HttpError ApiResponse → Option ℕ
  | .error e => some e.status
  | .ok _ => none

/-- The `get_job`/`reschedule_job`-or-`add_job` sequence both settings
endpoints run once the inner import has succeeded (dead code in the source,
since that import always fails): reschedule in place when the job id exists,
otherwise append a new per-user job. -/
def addOrReschedule (jobs : List Job) (job_id : String) (user_id : String)
    (t : Trigger) : List Job :=
  if jobs.any (fun j => j.jid == job_id) then
    jobs.map (fun j => if j.jid == job_id then ⟨j.jid, j.jname, t⟩ else j)
  else jobs ++ [⟨job_id, ("Monthly Expense Reports - ") ++ user_id, t⟩]

/-- `update_scheduler_schedule` of `app/routers/settings.py`.  Inputs: the
request fields, the caller's persisted settings row and the live scheduler
global; outputs: the HTTP outcome, the persisted row and the scheduler
global after the call.  Validation happens before any mutation; then the
schedule is saved with the previously persisted enabled flag; the job-update
branch is guarded by the module's stale `scheduler` binding (see
`settings_scheduler_binding`), and would start with a
`from app.utils.scheduler import monthly_reports_job_for_user` whose failure
the outer handler turns into a 500. -/
def update_scheduler_schedule (day hour minute : ℤ) (user_id : String)
    (db : Option StoredSettings) (g : Option SchedulerGlobal) :
    Except HttpError ApiResponse × Option StoredSettings × Option SchedulerGlobal :=
  if ¬(1 ≤ day ∧ day ≤ 31) then
    (Except.error ⟨400, ("Day must be between 1 and 31")⟩, db, g)
  else if ¬(0 ≤ hour ∧ hour ≤ 23) then
    (Except.error ⟨400, ("Hour must be between 0 and 23")⟩, db, g)
  else if ¬(0 ≤ minute ∧ minute ≤ 59) then
    (Except.error ⟨400, ("Minute must be between 0 and 59")⟩, db, g)
  else
    let enabled := (db.map (fun s => s.enabled)).getD false
    let db1 : Option StoredSettings := some ⟨day, hour, minute, enabled⟩
    if enabled = true ∧ (settings_scheduler_binding.map (fun s => s.running)).getD false = true then
      match resolveImport scheduler_module_names ("monthly_reports_job_for_user") with
      | .error e =>
        (Except.error ⟨500, ("Failed to update schedule: ") ++ pyErrMsg e⟩, db1, g)
      | .ok _ =>
        (Except.ok ⟨true⟩, db1,
          g.map (fun s => SchedulerGlobal.mk s.running
            (addOrReschedule s.jobs (("monthly_expense_reports_") ++ user_id) user_id
              (Trigger.cron day hour minute))))
    else (Except.ok ⟨true⟩, db1, g)

/-- `start_scheduler_endpoint` (`POST /scheduler/start`) of
`app/routers/settings.py`: initialize missing settings to the defaults
(day 1, hour 6, minute 0, disabled), persist `enabled=True`, then either call
`start_scheduler()` (when the stale `scheduler` binding is `None`/stopped —
always, see `settings_scheduler_binding`) or run the per-user job block whose
leading import of `monthly_reports_job_for_user` sits outside the inner
try/except, so its failure reaches the outer handler as a 500. -/
def start_scheduler_endpoint (user_id : String) (db : Option StoredSettings)
    (g : Option SchedulerGlobal) :
    Except HttpError ApiResponse × Option StoredSettings × Option SchedulerGlobal :=
  let db0 := db.getD ⟨1, 6, 0, false⟩
  let db1 : Option StoredSettings := some ⟨db0.day, db0.hour, db0.minute, true⟩
  if (settings_scheduler_binding.map (fun s => s.running)).getD false = false then
    (Except.ok ⟨true⟩, db1, start_scheduler g)
  else
    match resolveImport scheduler_module_names ("monthly_reports_job_for_user") with
    | .error e =>
      (Except.error ⟨500, ("Failed to enable scheduler: ") ++ pyErrMsg e⟩, db1, g)
    | .ok _ =>
      (Except.ok ⟨true⟩, db1,
        g.map (fun s => SchedulerGlobal.mk s.running
          (addOrReschedule s.jobs (("monthly_expense_reports_") ++ user_id) user_id
            (Trigger.cron db0.day db0.hour db0.minute))))

/-! ## Shared lemmas -/

theorem pvariance_nonneg (xs : List ℚ) : 0 ≤ pvariance xs := by
  unfold pvariance
  apply div_nonneg
  · apply List.sum_nonneg
    intro x hx
    obtain ⟨a, _, rfl⟩ := List.mem_map.1 hx
    positivity
  · exact_mod_cast Nat.zero_le xs.length

/-- The square-root-free `zscoreGe` computes exactly the source's
floating-point comparison `d / stdev >= sigma` with `stdev = sqrt v`, for
positive variance. -/
theorem zscoreGe_iff_real (d v sigma : ℚ) (hv : 0 < v) :
    zscoreGe d v sigma = true ↔ (sigma : ℝ) ≤ (d : ℝ) / Real.sqrt (v : ℝ) := by
  have hv' : (0 : ℝ) < (v : ℝ) := by exact_mod_cast hv
  have hs : 0 < Real.sqrt (v : ℝ) := Real.sqrt_pos.mpr hv'
  have hsq : Real.sqrt (v : ℝ) ^ 2 = (v : ℝ) := Real.sq_sqrt hv'.le
  rw [le_div_iff₀ hs]
  unfold zscoreGe
  split_ifs with hσ
  · have hσ' : (0 : ℝ) ≤ (sigma : ℝ) := by exact_mod_cast hσ
    rw [decide_eq_true_eq]
    constructor
    · rintro ⟨hd, hsq2⟩
      have hd' : (0 : ℝ) ≤ (d : ℝ) := by exact_mod_cast hd
      have h2 : (sigma : ℝ) ^ 2 * (v : ℝ) ≤ (d : ℝ) ^ 2 := by exact_mod_cast hsq2
      have h3 : ((sigma : ℝ) * Real.sqrt (v : ℝ)) ^ 2 ≤ (d : ℝ) ^ 2 := by
        rw [mul_pow, hsq]; exact h2
      exact le_of_sq_le_sq h3 hd'
    · intro h
      have h0 : (0 : ℝ) ≤ (sigma : ℝ) * Real.sqrt (v : ℝ) := mul_nonneg hσ' hs.le
      have hd' : (0 : ℝ) ≤ (d : ℝ) := le_trans h0 h
      refine ⟨by exact_mod_cast hd', ?_⟩
      have h2 : (sigma : ℝ) ^ 2 * (v : ℝ) ≤ (d : ℝ) ^ 2 := by nlinarith
      exact_mod_cast h2
  · push_neg at hσ
    have hσ' : (sigma : ℝ) < 0 := by exact_mod_cast hσ
    have hneg : (sigma : ℝ) * Real.sqrt (v : ℝ) < 0 := mul_neg_of_neg_of_pos hσ' hs
    rw [decide_eq_true_eq]
    constructor
    · rintro (hd | hsq2)
      · have hd' : (0 : ℝ) ≤ (d : ℝ) := by exact_mod_cast hd
        linarith
      · have h2 : (d : ℝ) ^ 2 ≤ (sigma : ℝ) ^ 2 * (v : ℝ) := by exact_mod_cast hsq2
        have h3 : (d : ℝ) ^ 2 ≤ (-((sigma : ℝ) * Real.sqrt (v : ℝ))) ^ 2 := by
          rw [neg_sq, mul_pow, hsq]; exact h2
        have h4 := (abs_le_of_sq_le_sq' h3 (by linarith)).1
        linarith
    · intro h
      by_cases hd : (0 : ℚ) ≤ d
      · exact Or.inl hd
      · push_neg at hd
        have hd' : (d : ℝ) < 0 := by exact_mod_cast hd
        refine Or.inr ?_
        have h2 : (d : ℝ) ^ 2 ≤ ((sigma : ℝ) * Real.sqrt (v : ℝ)) ^ 2 := by
          rw [sq_le_sq, abs_of_neg hd', abs_of_neg hneg]
          linarith
        rw [mul_pow, hsq] at h2
        exact_mod_cast h2

theorem detect_sublist (an : FinanceAnalyzer) (xs : List Expense) :
    (detect_spending_spikes an xs).Sublist xs := by
  unfold detect_spending_spikes
  split
  · exact List.nil_sublist xs
  · exact List.filter_sublist xs

/-- `isSpike` unfolded into the claim-level condition: amount at least the
minimum, and either zero variance with `sigma <= 0`, or positive variance
with real z-score at least sigma. -/
theorem isSpike_eq_true_iff (an : FinanceAnalyzer) (mean v a : ℚ) (hvnn : 0 ≤ v) :
    isSpike an mean v a = true ↔
      (an.minimum_spike_amount ≤ a ∧
        ((v = 0 ∧ an.spike_sigma ≤ 0) ∨
          (v ≠ 0 ∧ (an.spike_sigma : ℝ) ≤
            ((a : ℝ) - (mean : ℝ)) / Real.sqrt (v : ℝ)))) := by
  unfold isSpike
  split_ifs with h1 h2
  · simp only [Bool.false_eq_true, false_iff]
    rintro ⟨hmin, -⟩
    exact absurd hmin (not_le.mpr h1)
  · rw [decide_eq_true_eq]
    constructor
    · intro hσ
      exact ⟨not_lt.1 h1, Or.inl ⟨h2, hσ⟩⟩
    · rintro ⟨-, (⟨-, hσ⟩ | ⟨hne, -⟩)⟩
      · exact hσ
      · exact absurd h2 hne
  · have hvpos : 0 < v := lt_of_le_of_ne hvnn (fun h => h2 h.symm)
    rw [zscoreGe_iff_real (a - mean) v an.spike_sigma hvpos]
    push_cast
    constructor
    · intro h
      exact ⟨not_lt.1 h1, Or.inr ⟨h2, h⟩⟩
    · rintro ⟨-, (⟨hv0, -⟩ | ⟨-, h⟩)⟩
      · exact absurd hv0 h2
      · exact h

/-- Membership characterization of `detect_spending_spikes`. -/
theorem mem_detect_iff (an : FinanceAnalyzer) (xs : List Expense) (e : Expense) :
    e ∈ detect_spending_spikes an xs ↔
      (e ∈ xs ∧ an.minimum_spike_amount ≤ e.amount ∧
        ((pvariance (amounts xs) = 0 ∧ an.spike_sigma ≤ 0) ∨
          (pvariance (amounts xs) ≠ 0 ∧ (an.spike_sigma : ℝ) ≤
            ((e.amount : ℝ) - ((fmean (amounts xs) : ℚ) : ℝ)) /
              Real.sqrt ((pvariance (amounts xs) : ℚ) : ℝ)))) := by
  unfold detect_spending_spikes
  split
  · rename_i hxs
    rw [List.isEmpty_iff] at hxs
    subst hxs
    simp
  · rw [List.mem_filter,
      isSpike_eq_true_iff an (fmean (amounts xs)) (pvariance (amounts xs)) e.amount
        (pvariance_nonneg (amounts xs))]

/-- A rational that is a whole number of cents. -/
def Cents (q : ℚ) : Prop := ∃ z : ℤ, q = (z : ℚ) / 100

theorem cents_of_den_one (q : ℚ) (h : (q * 100).den = 1) : Cents q := by
  refine ⟨(q * 100).num, ?_⟩
  have h1 : ((q * 100).num : ℚ) = q * 100 := (Rat.den_eq_one_iff (q * 100)).mp h
  rw [h1]
  field_simp

theorem roundHalfEven_intCast (z : ℤ) : roundHalfEven (z : ℚ) = z := by
  unfold roundHalfEven
  simp only [Int.floor_intCast, sub_self]
  norm_num

theorem round2_cents (q : ℚ) (h : Cents q) : round2 q = q := by
  obtain ⟨z, rfl⟩ := h
  unfold round2
  rw [div_mul_cancel₀ _ (by norm_num : (100 : ℚ) ≠ 0), roundHalfEven_intCast]

theorem cents_add (a b : ℚ) (ha : Cents a) (hb : Cents b) : Cents (a + b) := by
  obtain ⟨x, rfl⟩ := ha
  obtain ⟨y, rfl⟩ := hb
  exact ⟨x + y, by push_cast; ring⟩

theorem cents_sum (l : List ℚ) (h : ∀ x ∈ l, Cents x) : Cents l.sum := by
  induction l with
  | nil => exact ⟨0, by norm_num⟩
  | cons x xs ih =>
    rw [List.sum_cons]
    exact cents_add x xs.sum (h x (List.mem_cons_self x xs))
      (ih (fun y hy => h y (List.mem_cons_of_mem x hy)))

theorem addAmount_snd_sum (m : List (String × ℚ)) (c : String) (a : ℚ) :
    ((addAmount m c a).map Prod.snd).sum = (m.map Prod.snd).sum + a := by
  induction m with
  | nil => simp [addAmount]
  | cons p rest ih =>
    by_cases h : p.1 = c
    · simp [addAmount, h]
      ring
    · simp [addAmount, h, ih]
      ring

theorem addAmount_cents (m : List (String × ℚ)) (c : String) (a : ℚ)
    (hm : ∀ p ∈ m, Cents p.2) (ha : Cents a) :
    ∀ p ∈ addAmount m c a, Cents p.2 := by
  induction m with
  | nil =>
    intro p hp
    simp [addAmount] at hp
    rw [hp]
    exact ha
  | cons q rest ih =>
    intro p hp
    by_cases h : q.1 = c
    · simp [addAmount, h] at hp
      rcases hp with hp | hp
      · rw [hp]
        exact cents_add q.2 a (hm q (List.mem_cons_self q rest)) ha
      · exact hm p (List.mem_cons_of_mem q hp)
    · simp only [addAmount, if_neg h, List.mem_cons] at hp
      rcases hp with hp | hp
      · rw [hp]
        exact hm q (List.mem_cons_self q rest)
      · exact ih (fun r hr => hm r (List.mem_cons_of_mem q hr)) p hp

theorem foldl_addAmount_snd_sum (xs : List Expense) :
    ∀ m : List (String × ℚ),
      (((xs.foldl (fun m e => addAmount m e.category e.amount) m).map Prod.snd).sum)
        = (m.map Prod.snd).sum + (amounts xs).sum := by
  induction xs with
  | nil => intro m; simp [amounts]
  | cons e rest ih =>
    intro m
    rw [List.foldl_cons, ih (addAmount m e.category e.amount), addAmount_snd_sum]
    simp [amounts]
    ring

theorem rawCategoryTotals_snd_sum (xs : List Expense) :
    ((rawCategoryTotals xs).map Prod.snd).sum = (amounts xs).sum := by
  unfold rawCategoryTotals
  rw [foldl_addAmount_snd_sum xs []]
  simp

theorem foldl_addAmount_cents (xs : List Expense) :
    ∀ m : List (String × ℚ), (∀ p ∈ m, Cents p.2) → (∀ e ∈ xs, Cents e.amount) →
      ∀ p ∈ xs.foldl (fun m e => addAmount m e.category e.amount) m, Cents p.2 := by
  induction xs with
  | nil => intro m hm _ p hp; exact hm p hp
  | cons e rest ih =>
    intro m hm hx p hp
    rw [List.foldl_cons] at hp
    exact ih (addAmount m e.category e.amount)
      (addAmount_cents m e.category e.amount hm (hx e (List.mem_cons_self e rest)))
      (fun f hf => hx f (List.mem_cons_of_mem e hf)) p hp

theorem map_round2_snd_sum (m : List (String × ℚ)) (h : ∀ p ∈ m, Cents p.2) :
    (((m.map (fun p => (p.1, round2 p.2))).map Prod.snd).sum) = (m.map Prod.snd).sum := by
  induction m with
  | nil => simp
  | cons p rest ih =>
    simp only [List.map_cons, List.sum_cons]
    rw [round2_cents p.2 (h p (List.mem_cons_self p rest)),
      ih (fun q hq => h q (List.mem_cons_of_mem p hq))]

theorem mem_budgetExceededNotifs (o : List (String × ℚ)) (month : String)
    (n : Notification) (h : n ∈ budgetExceededNotifs o month) :
    n.ntype = "budget_exceeded" ∧ n.severity = "danger" := by
  unfold budgetExceededNotifs at h
  obtain ⟨p, -, rfl⟩ := List.mem_map.1 h
  exact ⟨rfl, rfl⟩

theorem mem_approachingBudgetNotifs (t c o : List (String × ℚ)) (month : String)
    (n : Notification) (h : n ∈ approachingBudgetNotifs t c o month) :
    n.ntype = "approaching_budget" ∧ n.severity = "warning" := by
  unfold approachingBudgetNotifs at h
  obtain ⟨p, -, hp⟩ := List.mem_filterMap.1 h
  split_ifs at hp
  all_goals first
    | (have hn := Option.some.inj hp
       subst hn
       exact ⟨rfl, rfl⟩)
    | exact absurd hp (by simp)

theorem mem_spikeNotifs (s : List Expense) (month : String)
    (n : Notification) (h : n ∈ spikeNotifs s month) :
    (n.ntype = "spending_spike" ∨ n.ntype = "spending_spikes") ∧ n.severity = "warning" := by
  unfold spikeNotifs at h
  split_ifs at h
  · simp at h
  · simp at h
    subst h
    exact ⟨Or.inl rfl, rfl⟩
  · simp at h
    subst h
    exact ⟨Or.inr rfl, rfl⟩

theorem mem_highMonthlyNotifs (t : List (String × ℚ)) (mt : ℚ) (month : String)
    (n : Notification) (h : n ∈ highMonthlyNotifs t mt month) :
    n.ntype = "high_monthly_total" ∧ n.severity = "info" := by
  unfold highMonthlyNotifs at h
  split_ifs at h
  · simp at h
    subst h
    exact ⟨rfl, rfl⟩
  · simp at h

theorem mem_goodProgressNotifs (t c o : List (String × ℚ)) (mt : ℚ) (month : String)
    (n : Notification) (h : n ∈ goodProgressNotifs t c o mt month) :
    n.ntype = "good_progress" ∧ n.severity = "success" := by
  unfold goodProgressNotifs at h
  split_ifs at h
  · simp at h
    subst h
    exact ⟨rfl, rfl⟩
  · simp at h

theorem dictUpdate_base_nil (b u : List (String × ℚ)) (h : dictUpdate b u = []) :
    b = [] := by
  unfold dictUpdate at h
  rcases List.append_eq_nil.mp h with ⟨h1, -⟩
  exact List.map_eq_nil.mp h1

theorem load_thresholds_base_nil (an : FinanceAnalyzer)
    (ov : Option (List (String × ℚ))) (h : load_thresholds an ov = []) :
    an.budget_thresholds = [] :=
  dictUpdate_base_nil an.budget_thresholds (ov.getD []) h

theorem load_thresholds_some_nil (an : FinanceAnalyzer)
    (h : an.budget_thresholds = []) : load_thresholds an (some []) = [] := by
  simp [load_thresholds, dictUpdate, h]

theorem overspending_nil_of_load_nil (an : FinanceAnalyzer) (expenses : List Expense)
    (ov : Option (List (String × ℚ))) (h : load_thresholds an ov = []) :
    overspending_categories an expenses ov = [] := by
  simp [overspending_categories, h]

/-! ## Claim theorems -/

/-- Claim C1 (divergence evidence): `start_scheduler()` called with the
global unset registers exactly one system-wide job — id
`monthly_expense_reports`, the testing-mode 2-minute interval trigger — and
starts the loop; it consults no persisted settings and creates no per-user
job with a monthly (day, hour, minute) cron trigger, contrary to the claim
that one job per enabled user is registered. -/
theorem start_scheduler_registers_single_test_job :
    start_scheduler none =
      some ⟨true, [⟨("monthly_expense_reports"),
        ("Monthly Expense Reports (TEST MODE - ONE TIME)"), Trigger.intervalMinutes 2⟩]⟩ ∧
    ((start_scheduler none).map (fun s => s.jobs.length)) = some 1 := by
  exact ⟨rfl, rfl⟩

/-- Claim C2: every call of `generate_notifications` — and hence of the
notifications endpoints, which delegate to `get_notifications` — raises
`TypeError` at `finance_analyzer.load_thresholds(user_id=user_id)` before any
notification is emitted, because `load_thresholds(self, overrides=None)` has
no `user_id` parameter. -/
theorem generate_notifications_always_type_error :
    ∀ (an : FinanceAnalyzer) (expenses : List Expense) (summary : Summary)
      (month user_id : String),
      generate_notifications an expenses summary month user_id =
        Except.error (PyErr.typeError
          ("load_thresholds() got an unexpected keyword argument user_id")) ∧
      get_notifications an expenses month user_id =
        Except.error (PyErr.typeError
          ("load_thresholds() got an unexpected keyword argument user_id")) := by
  intro an expenses summary month user_id
  exact ⟨rfl, rfl⟩

/-- Claim C3 (amended): `refresh_scheduler_jobs` is a no-op — it neither
adds nor removes jobs, whatever the persisted enabled-state says. -/
theorem refresh_scheduler_jobs_noop :
    ∀ (settings : List (String × StoredSettings)) (g : Option SchedulerGlobal),
      refresh_scheduler_jobs settings g = g := by
  intro settings g
  rfl

/-- Claim C3 counterexample: user `u1` is enabled in persisted settings and
has no registered job, the scheduler is running, yet `refresh()` leaves the
job set empty instead of adding a job for `u1` as the claim requires. -/
theorem refresh_scheduler_jobs_adds_nothing_cex :
    (([(("u1"), (⟨1, 6, 0, true⟩ : StoredSettings))].all (fun p => p.2.enabled)) = true) ∧
    refresh_scheduler_jobs [(("u1"), ⟨1, 6, 0, true⟩)] (some ⟨true, []⟩) =
      some ⟨true, []⟩ := by
  exact ⟨rfl, rfl⟩

/-- Claim C10: an out-of-range day, hour or minute makes
`update_scheduler_schedule` fail with a 400 validation error before any
mutation: the persisted settings row and the scheduler state are returned
unchanged. -/
theorem schedule_validation_rejects_without_mutation :
    ∀ (day hour minute : ℤ) (user_id : String) (db : Option StoredSettings)
      (g : Option SchedulerGlobal),
      (¬(1 ≤ day ∧ day ≤ 31) ∨ ¬(0 ≤ hour ∧ hour ≤ 23) ∨ ¬(0 ≤ minute ∧ minute ≤ 59)) →
      errStatus (update_scheduler_schedule day hour minute user_id db g).1 = some 400 ∧
      (update_scheduler_schedule day hour minute user_id db g).2.1 = db ∧
      (update_scheduler_schedule day hour minute user_id db g).2.2 = g := by
  intro day hour minute user_id db g h
  unfold update_scheduler_schedule
  by_cases h1 : ¬(1 ≤ day ∧ day ≤ 31)
  · rw [if_pos h1]
    exact ⟨rfl, rfl, rfl⟩
  · rw [if_neg h1]
    by_cases h2 : ¬(0 ≤ hour ∧ hour ≤ 23)
    · rw [if_pos h2]
      exact ⟨rfl, rfl, rfl⟩
    · rw [if_neg h2]
      by_cases h3 : ¬(0 ≤ minute ∧ minute ≤ 59)
      · rw [if_pos h3]
        exact ⟨rfl, rfl, rfl⟩
      · exact absurd h (by tauto)

/-- Witness for C10 at day = 32. -/
theorem schedule_validation_rejects_witness :
    (¬((1:ℤ) ≤ 32 ∧ (32:ℤ) ≤ 31) ∨ ¬((0:ℤ) ≤ 6 ∧ (6:ℤ) ≤ 23) ∨
      ¬((0:ℤ) ≤ 0 ∧ (0:ℤ) ≤ 59)) ∧
    (errStatus (update_scheduler_schedule 32 6 0 ("u1")
        (some ⟨1, 6, 0, true⟩) (some ⟨true, []⟩)).1 = some 400 ∧
      (update_scheduler_schedule 32 6 0 ("u1")
        (some ⟨1, 6, 0, true⟩) (some ⟨true, []⟩)).2.1 = some ⟨1, 6, 0, true⟩ ∧
      (update_scheduler_schedule 32 6 0 ("u1")
        (some ⟨1, 6, 0, true⟩) (some ⟨true, []⟩)).2.2 = some ⟨true, []⟩) :=
  ⟨by decide,
    schedule_validation_rejects_without_mutation 32 6 0 ("u1")
      (some ⟨1, 6, 0, true⟩) (some ⟨true, []⟩) (by decide)⟩

/-- Claim C4 (amended): the name `monthly_reports_job_for_user` is indeed
absent from `app.utils.scheduler`, so the inner import would raise
`ImportError` if executed — but it never executes: the settings router's
`scheduler` name is the `None` captured by its module-level from-import
(`settings_scheduler_binding`), so even with the user enabled and the
scheduler engine running, both `update_scheduler_schedule` (with valid
fields) and `start_scheduler_endpoint` skip the per-user job block, register
no job, and report success rather than an HTTP 500. -/
theorem per_user_job_branch_unreachable :
    ∀ (day hour minute : ℤ) (user_id : String) (st : StoredSettings)
      (sg : SchedulerGlobal),
      (1 ≤ day ∧ day ≤ 31) → (0 ≤ hour ∧ hour ≤ 23) → (0 ≤ minute ∧ minute ≤ 59) →
      st.enabled = true → sg.running = true →
      resolveImport scheduler_module_names ("monthly_reports_job_for_user") =
        Except.error (PyErr.importError
          ("cannot import name monthly_reports_job_for_user")) ∧
      (update_scheduler_schedule day hour minute user_id (some st) (some sg)).1 =
        Except.ok ⟨true⟩ ∧
      (update_scheduler_schedule day hour minute user_id (some st) (some sg)).2.2 =
        some sg ∧
      (start_scheduler_endpoint user_id (some st) (some sg)).1 = Except.ok ⟨true⟩ ∧
      (start_scheduler_endpoint user_id (some st) (some sg)).2.2 = some sg := by
  intro day hour minute user_id st sg h1 h2 h3 hen hrun
  refine ⟨rfl, ?_, ?_, rfl, rfl⟩
  · unfold update_scheduler_schedule
    rw [if_neg (not_not_intro h1), if_neg (not_not_intro h2), if_neg (not_not_intro h3),
      if_neg (by simp [settings_scheduler_binding])]
  · unfold update_scheduler_schedule
    rw [if_neg (not_not_intro h1), if_neg (not_not_intro h2), if_neg (not_not_intro h3),
      if_neg (by simp [settings_scheduler_binding])]

/-- Witness for C4 at day 5, 06:00, user `u1`, enabled settings, a running
engine with no jobs. -/
theorem per_user_job_branch_unreachable_witness :
    ((1:ℤ) ≤ 5 ∧ (5:ℤ) ≤ 31) ∧ ((0:ℤ) ≤ 6 ∧ (6:ℤ) ≤ 23) ∧ ((0:ℤ) ≤ 0 ∧ (0:ℤ) ≤ 59) ∧
    (StoredSettings.mk 1 6 0 true).enabled = true ∧
    (SchedulerGlobal.mk true []).running = true ∧
    (resolveImport scheduler_module_names ("monthly_reports_job_for_user") =
        Except.error (PyErr.importError
          ("cannot import name monthly_reports_job_for_user")) ∧
      (update_scheduler_schedule 5 6 0 ("u1") (some (StoredSettings.mk 1 6 0 true))
        (some (SchedulerGlobal.mk true []))).1 = Except.ok ⟨true⟩ ∧
      (update_scheduler_schedule 5 6 0 ("u1") (some (StoredSettings.mk 1 6 0 true))
        (some (SchedulerGlobal.mk true []))).2.2 = some (SchedulerGlobal.mk true []) ∧
      (start_scheduler_endpoint ("u1") (some (StoredSettings.mk 1 6 0 true))
        (some (SchedulerGlobal.mk true []))).1 = Except.ok ⟨true⟩ ∧
      (start_scheduler_endpoint ("u1") (some (StoredSettings.mk 1 6 0 true))
        (some (SchedulerGlobal.mk true []))).2.2 = some (SchedulerGlobal.mk true [])) :=
  ⟨by decide, by decide, by decide, rfl, rfl,
    per_user_job_branch_unreachable 5 6 0 ("u1") (StoredSettings.mk 1 6 0 true)
      (SchedulerGlobal.mk true []) (by decide) (by decide) (by decide) rfl rfl⟩

/-- Claim C4 counterexample: with user `u1` enabled, the engine running and
a valid reschedule request, `update_scheduler_schedule` returns success —
not the HTTP 500 the claim asserts (no ImportError is ever raised, the
guarded branch being unreachable). -/
theorem update_schedule_success_despite_running_cex :
    (update_scheduler_schedule 5 6 0 ("u1") (some (StoredSettings.mk 1 6 0 true))
      (some (SchedulerGlobal.mk true []))).1 = Except.ok ⟨true⟩ := by
  rfl

/-- Claim C6 (amended): `detect_spending_spikes` returns, in input order, an
order-preserving sublist containing exactly the records with amount at least
the minimum whose z-score is at least sigma — where the z-score is
`(amount - mean) / stdev` for non-zero population standard deviation and is
taken to be `0` when the standard deviation is zero (so that with zero
standard deviation a qualifying record is a spike iff `sigma <= 0`, not
never, as the claim stated). -/
theorem detect_spikes_characterized :
    ∀ (an : FinanceAnalyzer) (xs : List Expense),
      (detect_spending_spikes an xs).Sublist xs ∧
      ∀ e : Expense, e ∈ detect_spending_spikes an xs ↔
        (e ∈ xs ∧ an.minimum_spike_amount ≤ e.amount ∧
          ((pvariance (amounts xs) = 0 ∧ an.spike_sigma ≤ 0) ∨
            (pvariance (amounts xs) ≠ 0 ∧ (an.spike_sigma : ℝ) ≤
              ((e.amount : ℝ) - ((fmean (amounts xs) : ℚ) : ℝ)) /
                Real.sqrt ((pvariance (amounts xs) : ℚ) : ℝ)))) := by
  intro an xs
  exact ⟨detect_sublist an xs, fun e => mem_detect_iff an xs e⟩

/-- Claim C6 counterexample: two equal amounts of 300 with sigma = 0 and
minimum 250 — the standard deviation is zero, yet the source flags both
records (`z_score = 0 >= sigma`), where the claim says none may be a spike. -/
theorem zero_stdev_flags_spikes_cex :
    pvariance (amounts [⟨("A"), 300, ("a1")⟩, ⟨("B"), 300, ("b1")⟩]) = 0 ∧
    detect_spending_spikes ⟨[], 0, 250⟩ [⟨("A"), 300, ("a1")⟩, ⟨("B"), 300, ("b1")⟩] =
      [⟨("A"), 300, ("a1")⟩, ⟨("B"), 300, ("b1")⟩] := by
  constructor
  · norm_num [pvariance, fmean, amounts]
  · norm_num [detect_spending_spikes, isSpike, zscoreGe, pvariance, fmean, amounts,
      List.filter]

/-- Claim C7 (amended): `detect_spending_spikes` always returns an
order-preserving sublist of its input, and with `sigma = 0` and non-zero
population standard deviation it flags exactly the records whose amount is at
least the minimum AND at least the mean (a record at or above the minimum but
below the mean has negative z-score and is not flagged). -/
theorem detect_spikes_sigma_zero :
    ∀ (an : FinanceAnalyzer) (xs : List Expense) (e : Expense),
      (detect_spending_spikes an xs).Sublist xs ∧
      (an.spike_sigma = 0 → pvariance (amounts xs) ≠ 0 →
        (e ∈ detect_spending_spikes an xs ↔
          (e ∈ xs ∧ an.minimum_spike_amount ≤ e.amount ∧
            fmean (amounts xs) ≤ e.amount))) := by
  intro an xs e
  refine ⟨detect_sublist an xs, fun hσ hv => ?_⟩
  rw [mem_detect_iff an xs e]
  have hvpos : 0 < pvariance (amounts xs) :=
    lt_of_le_of_ne (pvariance_nonneg (amounts xs)) (Ne.symm hv)
  have hs : 0 < Real.sqrt ((pvariance (amounts xs) : ℚ) : ℝ) :=
    Real.sqrt_pos.mpr (by exact_mod_cast hvpos)
  constructor
  · rintro ⟨hx, hmin, (⟨hv0, -⟩ | ⟨-, hz⟩)⟩
    · exact absurd hv0 hv
    · refine ⟨hx, hmin, ?_⟩
      rw [hσ] at hz
      push_cast at hz
      have h0 : (0 : ℝ) ≤ (e.amount : ℝ) - ((fmean (amounts xs) : ℚ) : ℝ) := by
        by_contra hneg
        push_neg at hneg
        have hlt := div_neg_of_neg_of_pos hneg hs
        linarith
      have h1 : ((fmean (amounts xs) : ℚ) : ℝ) ≤ (e.amount : ℝ) := by linarith
      exact_mod_cast h1
  · rintro ⟨hx, hmin, hmean⟩
    refine ⟨hx, hmin, Or.inr ⟨hv, ?_⟩⟩
    rw [hσ]
    push_cast
    apply div_nonneg
    · have h1 : ((fmean (amounts xs) : ℚ) : ℝ) ≤ (e.amount : ℝ) := by exact_mod_cast hmean
      linarith
    · exact Real.sqrt_nonneg _

/-- Witness for C7: sigma = 0, minimum 250, amounts 300 and 1000 (non-zero
standard deviation) — the 1000 record is flagged. -/
theorem detect_spikes_sigma_zero_witness :
    (detect_spending_spikes ⟨[], 0, 250⟩
      [⟨("A"), 300, ("a1")⟩, ⟨("B"), 1000, ("b1")⟩]).Sublist
      [⟨("A"), 300, ("a1")⟩, ⟨("B"), 1000, ("b1")⟩] ∧
    ((⟨("B"), 1000, ("b1")⟩ : Expense) ∈ detect_spending_spikes ⟨[], 0, 250⟩
        [⟨("A"), 300, ("a1")⟩, ⟨("B"), 1000, ("b1")⟩] ↔
      ((⟨("B"), 1000, ("b1")⟩ : Expense) ∈
          ([⟨("A"), 300, ("a1")⟩, ⟨("B"), 1000, ("b1")⟩] : List Expense) ∧
        (FinanceAnalyzer.mk [] 0 250).minimum_spike_amount ≤ (1000 : ℚ) ∧
        fmean (amounts [⟨("A"), 300, ("a1")⟩, ⟨("B"), 1000, ("b1")⟩]) ≤ (1000 : ℚ))) :=
  ⟨(detect_spikes_sigma_zero ⟨[], 0, 250⟩
      [⟨("A"), 300, ("a1")⟩, ⟨("B"), 1000, ("b1")⟩] ⟨("B"), 1000, ("b1")⟩).1,
    (detect_spikes_sigma_zero ⟨[], 0, 250⟩
      [⟨("A"), 300, ("a1")⟩, ⟨("B"), 1000, ("b1")⟩] ⟨("B"), 1000, ("b1")⟩).2
      rfl (by norm_num [pvariance, fmean, amounts])⟩

/-- Claim C7 counterexample: amounts 300 and 1000, sigma = 0, minimum 250 —
the standard deviation is non-zero and the 300 record is at or above the
minimum, yet it is not flagged (it sits below the mean 650), where the claim
says every record at or above the minimum is flagged. -/
theorem sigma_zero_not_all_flagged_cex :
    pvariance (amounts [⟨("A"), 300, ("a1")⟩, ⟨("B"), 1000, ("b1")⟩]) ≠ 0 ∧
    (250 : ℚ) ≤ 300 ∧
    (⟨("A"), 300, ("a1")⟩ : Expense) ∉ detect_spending_spikes ⟨[], 0, 250⟩
      [⟨("A"), 300, ("a1")⟩, ⟨("B"), 1000, ("b1")⟩] := by
  refine ⟨?_, by norm_num, ?_⟩
  · norm_num [pvariance, fmean, amounts]
  · norm_num [detect_spending_spikes, isSpike, zscoreGe, pvariance, fmean, amounts,
      List.filter]

/-- Claim C8 (amended): for non-empty record lists whose amounts are whole
numbers of cents (multiples of 0.01 — the only amounts rounding to two
decimals cannot disturb), `monthly_total` equals the sum of the
`category_totals` values exactly, in particular within the claimed 0.01.
For arbitrary amounts the 0.01 tolerance fails (see the counterexample). -/
theorem monthly_total_eq_category_totals_sum :
    ∀ xs : List Expense, xs ≠ [] →
      (xs.all (fun e => decide ((e.amount * 100).den = 1))) = true →
      monthly_total xs = ((category_totals xs).map Prod.snd).sum ∧
      |monthly_total xs - ((category_totals xs).map Prod.snd).sum| ≤ 1/100 := by
  intro xs hne hall
  have hc : ∀ e ∈ xs, Cents e.amount := by
    intro e he
    have h := List.all_eq_true.mp hall e he
    exact cents_of_den_one e.amount (of_decide_eq_true h)
  have hraw : ∀ p ∈ rawCategoryTotals xs, Cents p.2 :=
    foldl_addAmount_cents xs [] (by simp) hc
  have h1 : monthly_total xs = (amounts xs).sum := by
    unfold monthly_total
    refine round2_cents _ (cents_sum _ ?_)
    intro x hx
    obtain ⟨e, he, rfl⟩ := List.mem_map.1 hx
    exact hc e he
  have h2 : ((category_totals xs).map Prod.snd).sum = (amounts xs).sum := by
    unfold category_totals
    rw [map_round2_snd_sum (rawCategoryTotals xs) hraw, rawCategoryTotals_snd_sum]
  refine ⟨by rw [h1, h2], ?_⟩
  rw [h1, h2]
  simp

/-- Witness for C8 on a single 250.00 record. -/
theorem monthly_total_eq_sum_witness :
    (([⟨("Food"), 250, ("e1")⟩] : List Expense) ≠ []) ∧
    (([⟨("Food"), 250, ("e1")⟩] : List Expense).all
      (fun e => decide ((e.amount * 100).den = 1))) = true ∧
    (monthly_total [⟨("Food"), 250, ("e1")⟩] =
        ((category_totals [⟨("Food"), 250, ("e1")⟩]).map Prod.snd).sum ∧
      |monthly_total [⟨("Food"), 250, ("e1")⟩] -
        ((category_totals [⟨("Food"), 250, ("e1")⟩]).map Prod.snd).sum| ≤ 1/100) :=
  ⟨by simp, by norm_num,
    monthly_total_eq_category_totals_sum [⟨("Food"), 250, ("e1")⟩] (by simp) (by norm_num)⟩

/-- Claim C8 counterexample: five distinct categories of 0.004 each — the
monthly total rounds to 0.02 while every category total rounds to 0.00, so
the difference is 0.02 > 0.01 and the claimed tolerance fails. -/
theorem monthly_total_tolerance_cex :
    (([⟨("c1"), 1/250, ("e1")⟩, ⟨("c2"), 1/250, ("e2")⟩, ⟨("c3"), 1/250, ("e3")⟩,
        ⟨("c4"), 1/250, ("e4")⟩, ⟨("c5"), 1/250, ("e5")⟩] : List Expense) ≠ []) ∧
    ¬(|monthly_total [⟨("c1"), 1/250, ("e1")⟩, ⟨("c2"), 1/250, ("e2")⟩,
        ⟨("c3"), 1/250, ("e3")⟩, ⟨("c4"), 1/250, ("e4")⟩, ⟨("c5"), 1/250, ("e5")⟩] -
      ((category_totals [⟨("c1"), 1/250, ("e1")⟩, ⟨("c2"), 1/250, ("e2")⟩,
        ⟨("c3"), 1/250, ("e3")⟩, ⟨("c4"), 1/250, ("e4")⟩,
        ⟨("c5"), 1/250, ("e5")⟩]).map Prod.snd).sum| ≤ 1/100) := by
  refine ⟨by simp, ?_⟩
  have h1 : round2 (1/250 : ℚ) = 0 := by norm_num [round2, roundHalfEven]
  have h2 : round2 (1/50 : ℚ) = 1/50 := by norm_num [round2, roundHalfEven]
  have h3 : monthly_total [⟨("c1"), 1/250, ("e1")⟩, ⟨("c2"), 1/250, ("e2")⟩,
      ⟨("c3"), 1/250, ("e3")⟩, ⟨("c4"), 1/250, ("e4")⟩, ⟨("c5"), 1/250, ("e5")⟩] = 1/50 := by
    norm_num [monthly_total, amounts, h2]
  have h4 : category_totals [⟨("c1"), 1/250, ("e1")⟩, ⟨("c2"), 1/250, ("e2")⟩,
      ⟨("c3"), 1/250, ("e3")⟩, ⟨("c4"), 1/250, ("e4")⟩, ⟨("c5"), 1/250, ("e5")⟩] =
      [(("c1"), 0), (("c2"), 0), (("c3"), 0), (("c4"), 0), (("c5"), 0)] := by
    norm_num +decide [category_totals, rawCategoryTotals, addAmount, List.foldl, h1]
  rw [h3, h4]
  norm_num [abs_of_nonneg]

/-- Claim C9 (amended): given the non-empty expense list passed alongside the
summary, the generator body emits a good-progress (severity=success)
notification iff there are zero overspending categories, the monthly total is
positive, `category_totals` is non-empty (the source tests
`len(category_totals) > 0`, not that some category has positive spend), and
every category with a positive threshold sits below 70% of it; at most one
such notification is emitted per call. -/
theorem good_progress_characterized :
    ∀ (expenses : List Expense) (summary : Summary) (month : String)
      (thresholds : List (String × ℚ)),
      expenses ≠ [] →
      (((notificationRules expenses summary month thresholds).filter
          (fun n => n.ntype == "good_progress" && n.severity == "success")).length ≤ 1) ∧
      (((notificationRules expenses summary month thresholds).any
          (fun n => n.ntype == "good_progress" && n.severity == "success")) = true ↔
        (summary.overspending_categories.isEmpty = true ∧ 0 < summary.monthly_total ∧
          all_categories_under_70 thresholds summary.category_totals = true ∧
          summary.category_totals.isEmpty = false)) := by
  intro expenses summary month thresholds hne
  have hE : expenses.isEmpty = false := by
    cases expenses
    · exact absurd rfl hne
    · rfl
  have p1 : ∀ n ∈ budgetExceededNotifs summary.overspending_categories month,
      ¬(n.ntype == "good_progress" && n.severity == "success") = true := by
    intro n hn
    rw [(mem_budgetExceededNotifs _ _ n hn).1]
    simp
  have p2 : ∀ n ∈ approachingBudgetNotifs thresholds summary.category_totals
      summary.overspending_categories month,
      ¬(n.ntype == "good_progress" && n.severity == "success") = true := by
    intro n hn
    rw [(mem_approachingBudgetNotifs _ _ _ _ n hn).1]
    simp
  have p3 : ∀ n ∈ spikeNotifs summary.spending_spikes month,
      ¬(n.ntype == "good_progress" && n.severity == "success") = true := by
    intro n hn
    rcases (mem_spikeNotifs _ _ n hn).1 with h | h
    · rw [h]
      simp
    · rw [h]
      simp
  have p4 : ∀ n ∈ highMonthlyNotifs thresholds summary.monthly_total month,
      ¬(n.ntype == "good_progress" && n.severity == "success") = true := by
    intro n hn
    rw [(mem_highMonthlyNotifs _ _ _ n hn).1]
    simp
  unfold notificationRules
  rw [hE]
  simp only [Bool.false_eq_true, if_false]
  rw [List.filter_append, List.filter_append, List.filter_append, List.filter_append,
    List.filter_eq_nil.mpr p1, List.filter_eq_nil.mpr p2, List.filter_eq_nil.mpr p3,
    List.filter_eq_nil.mpr p4,
    List.any_append, List.any_append, List.any_append, List.any_append,
    List.any_eq_false.mpr p1, List.any_eq_false.mpr p2, List.any_eq_false.mpr p3,
    List.any_eq_false.mpr p4]
  simp only [List.nil_append, Bool.false_or]
  unfold goodProgressNotifs
  split_ifs with hc
  · refine ⟨by simp, ?_⟩
    simp only [List.any_cons, List.any_nil, Bool.or_false]
    exact iff_of_true rfl hc
  · refine ⟨by simp, ?_⟩
    simp only [List.any_nil]
    exact iff_of_false (by simp) hc

/-- Witness for C9: one 100.00 Food expense, a summary with positive total
and a non-empty category map, no thresholds — the good-progress notification
is emitted and the characterization holds. -/
theorem good_progress_characterized_witness :
    (([⟨("Food"), 100, ("e1")⟩] : List Expense) ≠ []) ∧
    ((((notificationRules [⟨("Food"), 100, ("e1")⟩]
          (Summary.mk 100 [(("Food"), 100)] [] [] [] []) ("2025-11") []).filter
        (fun n => n.ntype == "good_progress" && n.severity == "success")).length ≤ 1) ∧
      (((notificationRules [⟨("Food"), 100, ("e1")⟩]
          (Summary.mk 100 [(("Food"), 100)] [] [] [] []) ("2025-11") []).any
          (fun n => n.ntype == "good_progress" && n.severity == "success")) = true ↔
        ((Summary.mk 100 [(("Food"), 100)] [] [] [] []
            : Summary).overspending_categories.isEmpty = true ∧
          0 < (Summary.mk 100 [(("Food"), 100)] [] [] [] [] : Summary).monthly_total ∧
          all_categories_under_70 []
            (Summary.mk 100 [(("Food"), 100)] [] [] [] [] : Summary).category_totals = true ∧
          (Summary.mk 100 [(("Food"), 100)] [] [] [] []
            : Summary).category_totals.isEmpty = false))) :=
  ⟨by simp,
    good_progress_characterized [⟨("Food"), 100, ("e1")⟩]
      (Summary.mk 100 [(("Food"), 100)] [] [] [] []) ("2025-11") [] (by simp)⟩

/-- Claim C9 counterexample: a summary whose only category total is 0 (no
category has positive spend) with a positive monthly total and no
overspending — the source still emits the good-progress notification, where
the claim requires at least one category with spend > 0. -/
theorem good_progress_without_positive_spend_cex :
    ((notificationRules [⟨("Food"), 100, ("e1")⟩]
        (Summary.mk 100 [(("Food"), 0)] [] [] [] []) ("2025-01") []).any
      (fun n => n.ntype == "good_progress" && n.severity == "success")) = true ∧
    ((Summary.mk 100 [(("Food"), 0)] [] [] [] [] : Summary).category_totals.all
      (fun p => decide (p.2 ≤ 0))) = true := by
  exact ⟨by decide, by decide⟩

/-- Projection lemma: the `overspending_categories` field computed by
`summarize`. -/
theorem summarize_overspending_eq (an : FinanceAnalyzer) (expenses : List Expense)
    (ov : Option (List (String × ℚ))) :
    (summarize an expenses ov).overspending_categories =
      if expenses.isEmpty then [] else overspending_categories an expenses ov := by
  unfold summarize
  split_ifs <;> rfl

/-- Claim C5: with an empty effective threshold map, overspending is always
empty and the generator body (run, as the endpoint does, on the summary built
with those thresholds) never emits a budget-exceeded or approaching-budget
notification. -/
theorem no_budget_notifications_without_thresholds :
    ∀ (an : FinanceAnalyzer) (ov : Option (List (String × ℚ)))
      (expenses : List Expense) (month : String),
      load_thresholds an ov = [] →
      overspending_categories an expenses ov = [] ∧
      ((notificationRules expenses (summarize an expenses (some (load_thresholds an ov)))
          month (load_thresholds an ov)).all
        (fun n => !(n.ntype == "budget_exceeded") &&
          !(n.ntype == "approaching_budget"))) = true := by
  intro an ov expenses month h
  refine ⟨overspending_nil_of_load_nil an expenses ov h, ?_⟩
  rw [h]
  have hb : an.budget_thresholds = [] := load_thresholds_base_nil an ov h
  have hload2 : load_thresholds an (some []) = [] := load_thresholds_some_nil an hb
  have hov : (summarize an expenses (some [])).overspending_categories = [] := by
    rw [summarize_overspending_eq]
    split_ifs with hE
    · rfl
    · exact overspending_nil_of_load_nil an expenses (some []) hload2
  rw [List.all_eq_true]
  intro n hn
  unfold notificationRules at hn
  split_ifs at hn with hE
  · simp at hn
  · rw [hov] at hn
    simp only [List.mem_append] at hn
    rcases hn with ((((hn | hn) | hn) | hn) | hn)
    · simp [budgetExceededNotifs] at hn
    · simp [approachingBudgetNotifs] at hn
    · rcases (mem_spikeNotifs _ _ n hn).1 with ht | ht
      · rw [ht]
        rfl
      · rw [ht]
        rfl
    · rw [(mem_highMonthlyNotifs _ _ _ n hn).1]
      rfl
    · rw [(mem_goodProgressNotifs _ _ _ _ _ n hn).1]
      rfl

/-- Witness for C5: an analyzer with no file thresholds and no overrides on a
single 500.00 Food expense. -/
theorem no_budget_notifications_witness :
    load_thresholds ⟨[], 5/2, 250⟩ none = [] ∧
    (overspending_categories ⟨[], 5/2, 250⟩ [⟨("Food"), 500, ("e1")⟩] none = [] ∧
      ((notificationRules [⟨("Food"), 500, ("e1")⟩]
          (summarize ⟨[], 5/2, 250⟩ [⟨("Food"), 500, ("e1")⟩]
            (some (load_thresholds ⟨[], 5/2, 250⟩ none)))
          ("2025-11") (load_thresholds ⟨[], 5/2, 250⟩ none)).all
        (fun n => !(n.ntype == "budget_exceeded") &&
          !(n.ntype == "approaching_budget"))) = true) :=
  ⟨rfl,
    no_budget_notifications_without_thresholds ⟨[], 5/2, 250⟩ none
      [⟨("Food"), 500, ("e1")⟩] ("2025-11") rfl⟩
